import Mathlib

-- ===========================================================================
-- Shallow embedding of the magazine-photography repository.
-- Part 1: src/ologs.py — taxonomy, profile extractors, compatibility scorer.
-- Part 2: src/magazine_photography_mcp.py — 6D morphospace engine,
--         oscillation generator, presets, nearest-neighbour vocabulary,
--         and the tool-level operations built on them.
-- Python strings become String, Python ints become ℤ or ℕ, Python floats
-- become ℝ, raised exceptions become Except.error, returned error dicts
-- become dedicated error constructors of the result types.
-- ===========================================================================

-- Python's `needle in hay` on strings: contiguous substring test.
def substrOf (needle hay : String) : Bool := decide (needle.toList <:+: hay.toList)

-- ---------------------------------------------------------------------------
-- ologs.py, layer 1: the categorical taxonomy (closed enumerations).
-- ---------------------------------------------------------------------------

inductive TemporalAlignment
  | ERA_MATCHED
  | CREATIVE_ANACHRONISM
  | TEMPORAL_CLASH
  deriving DecidableEq

def TemporalAlignment.value : TemporalAlignment → String
  | .ERA_MATCHED => "era_matched"
  | .CREATIVE_ANACHRONISM => "creative_anachronism"
  | .TEMPORAL_CLASH => "temporal_clash"

inductive ColorPaletteCategory
  | VIBRANT
  | MUTED
  | MONOCHROMATIC
  | COOL
  | WARM
  | MIXED
  deriving DecidableEq

def ColorPaletteCategory.value : ColorPaletteCategory → String
  | .VIBRANT => "vibrant"
  | .MUTED => "muted"
  | .MONOCHROMATIC => "monochromatic"
  | .COOL => "cool"
  | .WARM => "warm"
  | .MIXED => "mixed"

inductive LightingApproach
  | HARD_DIRECTIONAL
  | SOFT_DIFFUSED
  | NATURAL_AMBIENT
  | CLINICAL
  | DRAMATIC
  deriving DecidableEq

def LightingApproach.value : LightingApproach → String
  | .HARD_DIRECTIONAL => "hard_directional"
  | .SOFT_DIFFUSED => "soft_diffused"
  | .NATURAL_AMBIENT => "natural_ambient"
  | .CLINICAL => "clinical"
  | .DRAMATIC => "dramatic"

inductive ContrastProfile
  | HIGH
  | MEDIUM
  | LOW
  | EXTREME
  deriving DecidableEq

inductive TextureEmphasis
  | SHARP
  | SMOOTH
  | ORGANIC
  | SYNTHETIC
  | ETHEREAL
  deriving DecidableEq

inductive CompositionStrategy
  | GEOMETRIC
  | ASYMMETRICAL
  | TIGHT_CROP
  | ENVIRONMENTAL
  | MINIMALIST
  deriving DecidableEq

def CompositionStrategy.value : CompositionStrategy → String
  | .GEOMETRIC => "geometric"
  | .ASYMMETRICAL => "asymmetrical"
  | .TIGHT_CROP => "tight_crop"
  | .ENVIRONMENTAL => "environmental"
  | .MINIMALIST => "minimalist"

inductive FocalLengthCategory
  | ULTRA_WIDE
  | WIDE
  | STANDARD
  | MEDIUM_TELEPHOTO
  | TELEPHOTO
  deriving DecidableEq

def FocalLengthCategory.value : FocalLengthCategory → String
  | .ULTRA_WIDE => "ultra_wide"
  | .WIDE => "wide"
  | .STANDARD => "standard"
  | .MEDIUM_TELEPHOTO => "medium_telephoto"
  | .TELEPHOTO => "telephoto"

inductive SubjectContext
  | PEOPLE
  | OBJECTS
  | PLACES
  | MOMENTS
  | ABSTRACT
  deriving DecidableEq

-- The Literal["shallow", "moderate", "deep"] type of depth_of_field.
inductive DepthOfField
  | shallow
  | moderate
  | deep
  deriving DecidableEq

-- ---------------------------------------------------------------------------
-- ologs.py, layer 2/3: derived profile records.
-- ---------------------------------------------------------------------------

structure CompatibilityScore where
  overall_harmony : ℤ
  technical_score : ℤ
  aesthetic_score : ℤ
  creative_tension : ℤ
  temporal_alignment : TemporalAlignment
  rationale : String

structure VisualTreatmentProfile where
  color_palette : String
  color_category : ColorPaletteCategory
  lighting : String
  lighting_approach : LightingApproach
  contrast : String
  contrast_profile : ContrastProfile
  texture : String
  texture_emphasis : TextureEmphasis

structure PhotographyTechnicalProfile where
  composition_strategy : CompositionStrategy
  focal_length_category : FocalLengthCategory
  subject_context : SubjectContext
  framing_description : String
  depth_of_field : DepthOfField
  typical_aperture_range : String

-- ---------------------------------------------------------------------------
-- Input records: free-text dicts with possibly missing fields.
-- `d.get(key, dfl)` becomes Option.getD.
-- ---------------------------------------------------------------------------

structure VisualTreatmentDict where
  color_palette : Option String
  lighting : Option String
  contrast : Option String
  texture : Option String

structure MagazineDict where
  visual_treatment : Option VisualTreatmentDict

structure TechnicalDict where
  focal_length : Option String
  typical_aperture_range : Option String

structure AestheticDict where
  composition : Option String

structure ContextDict where
  typical_uses : Option (List String)

structure PhotographyDict where
  technical : Option TechnicalDict
  aesthetic : Option AestheticDict
  context : Option ContextDict

-- ---------------------------------------------------------------------------
-- OlogMorphisms.magazine_to_visual_treatment (ologs.py lines 180-249).
-- ---------------------------------------------------------------------------

def magazine_to_visual_treatment (magazine : MagazineDict) : VisualTreatmentProfile :=
  let visual := magazine.visual_treatment.getD ⟨none, none, none, none⟩
  let color_text := (visual.color_palette.getD "").toLower
  let color_cat :=
    if substrOf "muted" color_text || substrOf "desaturated" color_text ||
        substrOf "pastel" color_text then
      ColorPaletteCategory.MUTED
    else if substrOf "vibrant" color_text || substrOf "saturated" color_text ||
        substrOf "vivid" color_text then
      ColorPaletteCategory.VIBRANT
    else if substrOf "cool" color_text || substrOf "blue" color_text ||
        substrOf "cyan" color_text then
      ColorPaletteCategory.COOL
    else if substrOf "warm" color_text || substrOf "orange" color_text ||
        substrOf "yellow" color_text then
      ColorPaletteCategory.WARM
    else if substrOf "black and white" color_text || substrOf "b&w" color_text ||
        substrOf "monochrome" color_text then
      ColorPaletteCategory.MONOCHROMATIC
    else
      ColorPaletteCategory.MIXED
  let lighting_text := (visual.lighting.getD "").toLower
  let lighting_cat :=
    if substrOf "soft" lighting_text || substrOf "diffused" lighting_text then
      LightingApproach.SOFT_DIFFUSED
    else if substrOf "hard" lighting_text || substrOf "dramatic" lighting_text ||
        substrOf "sharp" lighting_text then
      LightingApproach.HARD_DIRECTIONAL
    else if substrOf "natural" lighting_text || substrOf "golden hour" lighting_text ||
        substrOf "window" lighting_text then
      LightingApproach.NATURAL_AMBIENT
    else if substrOf "clinical" lighting_text || substrOf "neutral" lighting_text ||
        substrOf "even" lighting_text then
      LightingApproach.CLINICAL
    else
      LightingApproach.DRAMATIC
  let contrast_text := (visual.contrast.getD "").toLower
  let contrast_cat :=
    if substrOf "extreme" contrast_text || substrOf "crushed" contrast_text ||
        substrOf "blown" contrast_text then
      ContrastProfile.EXTREME
    else if substrOf "high" contrast_text then
      ContrastProfile.HIGH
    else if substrOf "low" contrast_text || substrOf "lifted" contrast_text ||
        substrOf "compressed" contrast_text then
      ContrastProfile.LOW
    else
      ContrastProfile.MEDIUM
  let texture_text := (visual.texture.getD "").toLower
  let texture_cat :=
    if substrOf "sharp" texture_text || substrOf "crisp" texture_text ||
        substrOf "clinical" texture_text then
      TextureEmphasis.SHARP
    else if substrOf "soft" texture_text || substrOf "dreamy" texture_text ||
        substrOf "ethereal" texture_text then
      TextureEmphasis.ETHEREAL
    else if substrOf "smooth" texture_text || substrOf "glossy" texture_text ||
        substrOf "polished" texture_text then
      TextureEmphasis.SMOOTH
    else if substrOf "synthetic" texture_text || substrOf "materials" texture_text ||
        substrOf "manufactured" texture_text then
      TextureEmphasis.SYNTHETIC
    else
      TextureEmphasis.ORGANIC
  { color_palette := visual.color_palette.getD ""
    color_category := color_cat
    lighting := visual.lighting.getD ""
    lighting_approach := lighting_cat
    contrast := visual.contrast.getD ""
    contrast_profile := contrast_cat
    texture := visual.texture.getD ""
    texture_emphasis := texture_cat }

-- ---------------------------------------------------------------------------
-- OlogMorphisms.photography_to_technical_profile (ologs.py lines 251-320).
-- ---------------------------------------------------------------------------

def photography_to_technical_profile (photography : PhotographyDict) :
    PhotographyTechnicalProfile :=
  let technical := photography.technical.getD ⟨none, none⟩
  let aesthetic := photography.aesthetic.getD ⟨none⟩
  let context := photography.context.getD ⟨none⟩
  let composition_text := (aesthetic.composition.getD "").toLower
  let composition_cat :=
    if substrOf "grid" composition_text || substrOf "geometric" composition_text ||
        substrOf "symmetric" composition_text then
      CompositionStrategy.GEOMETRIC
    else if substrOf "asymmetric" composition_text || substrOf "balanced" composition_text then
      CompositionStrategy.ASYMMETRICAL
    else if substrOf "crop" composition_text || substrOf "tight" composition_text ||
        substrOf "close" composition_text then
      CompositionStrategy.TIGHT_CROP
    else if substrOf "environment" composition_text || substrOf "context" composition_text then
      CompositionStrategy.ENVIRONMENTAL
    else if substrOf "minimal" composition_text || substrOf "sparse" composition_text ||
        substrOf "negative space" composition_text then
      CompositionStrategy.MINIMALIST
    else
      CompositionStrategy.ASYMMETRICAL
  let focal_text := (technical.focal_length.getD "").toLower
  let focal_cat :=
    if substrOf "ultra" focal_text || substrOf "14" focal_text || substrOf "16" focal_text then
      FocalLengthCategory.ULTRA_WIDE
    else if substrOf "wide" focal_text || substrOf "24" focal_text ||
        substrOf "35" focal_text then
      FocalLengthCategory.WIDE
    else if substrOf "50" focal_text || substrOf "35-50" focal_text ||
        substrOf "standard" focal_text then
      FocalLengthCategory.STANDARD
    else if substrOf "85" focal_text || substrOf "70" focal_text ||
        substrOf "50-85" focal_text || substrOf "medium telephoto" focal_text then
      FocalLengthCategory.MEDIUM_TELEPHOTO
    else if substrOf "telephoto" focal_text || substrOf "100" focal_text ||
        substrOf "200" focal_text then
      FocalLengthCategory.TELEPHOTO
    else
      FocalLengthCategory.STANDARD
  let typical_uses := (String.intercalate " " (context.typical_uses.getD [])).toLower
  let subject_cat :=
    if substrOf "portrait" typical_uses || substrOf "people" typical_uses ||
        substrOf "fashion" typical_uses then
      SubjectContext.PEOPLE
    else if substrOf "product" typical_uses || substrOf "still life" typical_uses then
      SubjectContext.OBJECTS
    else if substrOf "architecture" typical_uses || substrOf "landscape" typical_uses ||
        substrOf "place" typical_uses then
      SubjectContext.PLACES
    else if substrOf "candid" typical_uses || substrOf "moment" typical_uses ||
        substrOf "event" typical_uses then
      SubjectContext.MOMENTS
    else
      SubjectContext.ABSTRACT
  let aperture_text := (technical.typical_aperture_range.getD "").toLower
  let dof :=
    if substrOf "f/1" aperture_text || substrOf "shallow" aperture_text then
      DepthOfField.shallow
    else if substrOf "f/5.6" aperture_text || substrOf "f/8" aperture_text ||
        substrOf "deep" aperture_text then
      DepthOfField.deep
    else
      DepthOfField.moderate
  { composition_strategy := composition_cat
    focal_length_category := focal_cat
    subject_context := subject_cat
    framing_description := aesthetic.composition.getD ""
    depth_of_field := dof
    typical_aperture_range := technical.typical_aperture_range.getD "f/2.8-f/5.6" }

-- ---------------------------------------------------------------------------
-- OlogMorphisms.compatibility_mapping (ologs.py lines 322-417), split into the
-- four intermediate computations the function performs in sequence.  The
-- suffix Pre marks a score before the final clamping step.
-- ---------------------------------------------------------------------------

def technicalScorePre (pp : PhotographyTechnicalProfile) : ℤ :=
  let s : ℤ := 5
  let s := if pp.focal_length_category = FocalLengthCategory.MEDIUM_TELEPHOTO then s + 1 else s
  let s := if pp.composition_strategy = CompositionStrategy.TIGHT_CROP then s + 1 else s
  let s := if pp.focal_length_category = FocalLengthCategory.WIDE then
      (if pp.composition_strategy = CompositionStrategy.ENVIRONMENTAL then s + 1 else s)
    else s
  s

def aestheticScorePre (mp : VisualTreatmentProfile)
    (pp : PhotographyTechnicalProfile) : ℤ :=
  let s : ℤ := 5
  let s := if mp.color_category = ColorPaletteCategory.MUTED then
      (if mp.lighting_approach = LightingApproach.SOFT_DIFFUSED then s + 1 else s)
    else s
  let s := if mp.color_category = ColorPaletteCategory.VIBRANT then
      (if mp.contrast_profile = ContrastProfile.HIGH ∨
          mp.contrast_profile = ContrastProfile.EXTREME then s + 1 else s)
    else s
  let s := if mp.lighting_approach = LightingApproach.HARD_DIRECTIONAL then
      (if mp.contrast_profile = ContrastProfile.HIGH ∨
          mp.contrast_profile = ContrastProfile.EXTREME then s + 1 else s)
    else s
  let s := if mp.texture_emphasis = TextureEmphasis.SHARP then
      (if pp.composition_strategy = CompositionStrategy.GEOMETRIC then s + 1 else s)
    else s
  s

def temporalAlignmentOf (magazine_era photography_name : String) : TemporalAlignment :=
  if substrOf "1960" magazine_era || substrOf "1970" magazine_era then
    if substrOf "documentary" photography_name.toLower ||
        substrOf "street" photography_name.toLower then
      TemporalAlignment.ERA_MATCHED
    else if substrOf "studio" photography_name.toLower ||
        substrOf "fashion" photography_name.toLower then
      TemporalAlignment.ERA_MATCHED
    else
      TemporalAlignment.CREATIVE_ANACHRONISM
  else if substrOf "contemporary" magazine_era || substrOf "2000" magazine_era ||
      substrOf "2010" magazine_era then
    if substrOf "cinematic" photography_name.toLower ||
        substrOf "drone" photography_name.toLower then
      TemporalAlignment.ERA_MATCHED
    else
      TemporalAlignment.CREATIVE_ANACHRONISM
  else
    TemporalAlignment.CREATIVE_ANACHRONISM

def creativeTensionPre (mp : VisualTreatmentProfile) (pp : PhotographyTechnicalProfile)
    (temporal_align : TemporalAlignment) : ℤ :=
  let s : ℤ := 5
  let s := if temporal_align = TemporalAlignment.CREATIVE_ANACHRONISM then s + 2 else s
  let s := if mp.contrast_profile = ContrastProfile.EXTREME then
      (if pp.composition_strategy = CompositionStrategy.MINIMALIST then s + 1 else s)
    else s
  s

def compatibility_mapping (magazine_profile : VisualTreatmentProfile)
    (photography_profile : PhotographyTechnicalProfile)
    (magazine_era : String) (photography_name : String) : CompatibilityScore :=
  let technical_score := technicalScorePre photography_profile
  let aesthetic_score := aestheticScorePre magazine_profile photography_profile
  let temporal_align := temporalAlignmentOf magazine_era photography_name
  let tension := creativeTensionPre magazine_profile photography_profile temporal_align
  let harmony := (technical_score + aesthetic_score) / 2
  let harmony := if tension > 7 then harmony - 1 else harmony
  let harmony := max 1 (min 10 harmony)
  let technical_score := max 1 (min 10 technical_score)
  let aesthetic_score := max 1 (min 10 aesthetic_score)
  let tension := max 1 (min 10 tension)
  let rationale :=
    "Magazine: " ++ magazine_profile.color_category.value ++ " colors, " ++
    magazine_profile.lighting_approach.value ++ " lighting. " ++
    "Photography: " ++ photography_profile.composition_strategy.value ++
    " composition, " ++ photography_profile.focal_length_category.value ++
    " focal length. Temporal: " ++ temporal_align.value ++ "."
  { overall_harmony := harmony
    technical_score := technical_score
    aesthetic_score := aesthetic_score
    creative_tension := tension
    temporal_alignment := temporal_align
    rationale := rationale }

-- ---------------------------------------------------------------------------
-- Spec-side formulation of the classifiers: an ordered list of
-- (substring-predicate, category) pairs evaluated first-match-wins with a
-- fixed fallback.  These rule lists follow the spec wording (section 4.1)
-- and are compared against the source-side classifiers above.
-- ---------------------------------------------------------------------------

def firstMatch {α : Type} (text : String) : List ((String → Bool) × α) → α → α
  | [], dflt => dflt
  | (p, c) :: rest, dflt => if p text then c else firstMatch text rest dflt

def colorRulesSpec : List ((String → Bool) × ColorPaletteCategory) :=
  [(fun t => substrOf "muted" t || substrOf "desaturated" t || substrOf "pastel" t,
    ColorPaletteCategory.MUTED),
   (fun t => substrOf "vibrant" t || substrOf "saturated" t || substrOf "vivid" t,
    ColorPaletteCategory.VIBRANT),
   (fun t => substrOf "cool" t || substrOf "blue" t || substrOf "cyan" t,
    ColorPaletteCategory.COOL),
   (fun t => substrOf "warm" t || substrOf "orange" t || substrOf "yellow" t,
    ColorPaletteCategory.WARM),
   (fun t => substrOf "black and white" t || substrOf "b&w" t || substrOf "monochrome" t,
    ColorPaletteCategory.MONOCHROMATIC)]

def lightingRulesSpec : List ((String → Bool) × LightingApproach) :=
  [(fun t => substrOf "soft" t || substrOf "diffused" t, LightingApproach.SOFT_DIFFUSED),
   (fun t => substrOf "hard" t || substrOf "dramatic" t || substrOf "sharp" t,
    LightingApproach.HARD_DIRECTIONAL),
   (fun t => substrOf "natural" t || substrOf "golden hour" t || substrOf "window" t,
    LightingApproach.NATURAL_AMBIENT),
   (fun t => substrOf "clinical" t || substrOf "neutral" t || substrOf "even" t,
    LightingApproach.CLINICAL)]

def contrastRulesSpec : List ((String → Bool) × ContrastProfile) :=
  [(fun t => substrOf "extreme" t || substrOf "crushed" t || substrOf "blown" t,
    ContrastProfile.EXTREME),
   (fun t => substrOf "high" t, ContrastProfile.HIGH),
   (fun t => substrOf "low" t || substrOf "lifted" t || substrOf "compressed" t,
    ContrastProfile.LOW)]

def textureRulesSpec : List ((String → Bool) × TextureEmphasis) :=
  [(fun t => substrOf "sharp" t || substrOf "crisp" t || substrOf "clinical" t,
    TextureEmphasis.SHARP),
   (fun t => substrOf "soft" t || substrOf "dreamy" t || substrOf "ethereal" t,
    TextureEmphasis.ETHEREAL),
   (fun t => substrOf "smooth" t || substrOf "glossy" t || substrOf "polished" t,
    TextureEmphasis.SMOOTH),
   (fun t => substrOf "synthetic" t || substrOf "materials" t || substrOf "manufactured" t,
    TextureEmphasis.SYNTHETIC)]

def compositionRulesSpec : List ((String → Bool) × CompositionStrategy) :=
  [(fun t => substrOf "grid" t || substrOf "geometric" t || substrOf "symmetric" t,
    CompositionStrategy.GEOMETRIC),
   (fun t => substrOf "asymmetric" t || substrOf "balanced" t,
    CompositionStrategy.ASYMMETRICAL),
   (fun t => substrOf "crop" t || substrOf "tight" t || substrOf "close" t,
    CompositionStrategy.TIGHT_CROP),
   (fun t => substrOf "environment" t || substrOf "context" t,
    CompositionStrategy.ENVIRONMENTAL),
   (fun t => substrOf "minimal" t || substrOf "sparse" t || substrOf "negative space" t,
    CompositionStrategy.MINIMALIST)]

def focalRulesSpec : List ((String → Bool) × FocalLengthCategory) :=
  [(fun t => substrOf "ultra" t || substrOf "14" t || substrOf "16" t,
    FocalLengthCategory.ULTRA_WIDE),
   (fun t => substrOf "wide" t || substrOf "24" t || substrOf "35" t,
    FocalLengthCategory.WIDE),
   (fun t => substrOf "50" t || substrOf "35-50" t || substrOf "standard" t,
    FocalLengthCategory.STANDARD),
   (fun t => substrOf "85" t || substrOf "70" t || substrOf "50-85" t ||
      substrOf "medium telephoto" t,
    FocalLengthCategory.MEDIUM_TELEPHOTO),
   (fun t => substrOf "telephoto" t || substrOf "100" t || substrOf "200" t,
    FocalLengthCategory.TELEPHOTO)]

def subjectRulesSpec : List ((String → Bool) × SubjectContext) :=
  [(fun t => substrOf "portrait" t || substrOf "people" t || substrOf "fashion" t,
    SubjectContext.PEOPLE),
   (fun t => substrOf "product" t || substrOf "still life" t, SubjectContext.OBJECTS),
   (fun t => substrOf "architecture" t || substrOf "landscape" t || substrOf "place" t,
    SubjectContext.PLACES),
   (fun t => substrOf "candid" t || substrOf "moment" t || substrOf "event" t,
    SubjectContext.MOMENTS)]

def dofRulesSpec : List ((String → Bool) × DepthOfField) :=
  [(fun t => substrOf "f/1" t || substrOf "shallow" t, DepthOfField.shallow),
   (fun t => substrOf "f/5.6" t || substrOf "f/8" t || substrOf "deep" t,
    DepthOfField.deep)]

-- The lower-cased source texts the classifiers read, written out once so the
-- first-match characterizations below can name them.
def magazineColorText (m : MagazineDict) : String :=
  ((m.visual_treatment.getD ⟨none, none, none, none⟩).color_palette.getD "").toLower

def magazineLightingText (m : MagazineDict) : String :=
  ((m.visual_treatment.getD ⟨none, none, none, none⟩).lighting.getD "").toLower

def magazineContrastText (m : MagazineDict) : String :=
  ((m.visual_treatment.getD ⟨none, none, none, none⟩).contrast.getD "").toLower

def magazineTextureText (m : MagazineDict) : String :=
  ((m.visual_treatment.getD ⟨none, none, none, none⟩).texture.getD "").toLower

def photographyCompositionText (ph : PhotographyDict) : String :=
  ((ph.aesthetic.getD ⟨none⟩).composition.getD "").toLower

def photographyFocalText (ph : PhotographyDict) : String :=
  ((ph.technical.getD ⟨none, none⟩).focal_length.getD "").toLower

def photographyUsesText (ph : PhotographyDict) : String :=
  (String.intercalate " " ((ph.context.getD ⟨none⟩).typical_uses.getD [])).toLower

def photographyApertureText (ph : PhotographyDict) : String :=
  ((ph.technical.getD ⟨none, none⟩).typical_aperture_range.getD "").toLower

-- Exhaustiveness helpers: every value of each taxonomy type belongs to its
-- closed enumerated set.

lemma colorCat_mem_closed (c : ColorPaletteCategory) :
    c ∈ [ColorPaletteCategory.VIBRANT, ColorPaletteCategory.MUTED,
      ColorPaletteCategory.MONOCHROMATIC, ColorPaletteCategory.COOL,
      ColorPaletteCategory.WARM, ColorPaletteCategory.MIXED] := by
  cases c <;> simp

lemma lighting_mem_closed (c : LightingApproach) :
    c ∈ [LightingApproach.HARD_DIRECTIONAL, LightingApproach.SOFT_DIFFUSED,
      LightingApproach.NATURAL_AMBIENT, LightingApproach.CLINICAL,
      LightingApproach.DRAMATIC] := by
  cases c <;> simp

lemma contrast_mem_closed (c : ContrastProfile) :
    c ∈ [ContrastProfile.HIGH, ContrastProfile.MEDIUM, ContrastProfile.LOW,
      ContrastProfile.EXTREME] := by
  cases c <;> simp

lemma texture_mem_closed (c : TextureEmphasis) :
    c ∈ [TextureEmphasis.SHARP, TextureEmphasis.SMOOTH, TextureEmphasis.ORGANIC,
      TextureEmphasis.SYNTHETIC, TextureEmphasis.ETHEREAL] := by
  cases c <;> simp

lemma composition_mem_closed (c : CompositionStrategy) :
    c ∈ [CompositionStrategy.GEOMETRIC, CompositionStrategy.ASYMMETRICAL,
      CompositionStrategy.TIGHT_CROP, CompositionStrategy.ENVIRONMENTAL,
      CompositionStrategy.MINIMALIST] := by
  cases c <;> simp

lemma focal_mem_closed (c : FocalLengthCategory) :
    c ∈ [FocalLengthCategory.ULTRA_WIDE, FocalLengthCategory.WIDE,
      FocalLengthCategory.STANDARD, FocalLengthCategory.MEDIUM_TELEPHOTO,
      FocalLengthCategory.TELEPHOTO] := by
  cases c <;> simp

lemma subject_mem_closed (c : SubjectContext) :
    c ∈ [SubjectContext.PEOPLE, SubjectContext.OBJECTS, SubjectContext.PLACES,
      SubjectContext.MOMENTS, SubjectContext.ABSTRACT] := by
  cases c <;> simp

lemma dof_mem_closed (c : DepthOfField) :
    c ∈ [DepthOfField.shallow, DepthOfField.moderate, DepthOfField.deep] := by
  cases c <;> simp

/-- C3: both profile extractors are total Lean functions; on every input
record, including records with missing or empty text fields, each classified
dimension lies in its closed enumerated set, and each dimension equals the
first-match-wins evaluation of the spec's ordered case-insensitive substring
rules with the fixed fallback (for color: muted/desaturated/pastel, then
vibrant/saturated/vivid, then cool/blue/cyan, then warm/orange/yellow, then
black-and-white/b&w/monochrome, else MIXED). -/
theorem classifiers_total_closed_and_first_match_wins
    (m : MagazineDict) (ph : PhotographyDict) :
    ((magazine_to_visual_treatment m).color_category ∈
        [ColorPaletteCategory.VIBRANT, ColorPaletteCategory.MUTED,
         ColorPaletteCategory.MONOCHROMATIC, ColorPaletteCategory.COOL,
         ColorPaletteCategory.WARM, ColorPaletteCategory.MIXED] ∧
      (magazine_to_visual_treatment m).lighting_approach ∈
        [LightingApproach.HARD_DIRECTIONAL, LightingApproach.SOFT_DIFFUSED,
         LightingApproach.NATURAL_AMBIENT, LightingApproach.CLINICAL,
         LightingApproach.DRAMATIC] ∧
      (magazine_to_visual_treatment m).contrast_profile ∈
        [ContrastProfile.HIGH, ContrastProfile.MEDIUM, ContrastProfile.LOW,
         ContrastProfile.EXTREME] ∧
      (magazine_to_visual_treatment m).texture_emphasis ∈
        [TextureEmphasis.SHARP, TextureEmphasis.SMOOTH, TextureEmphasis.ORGANIC,
         TextureEmphasis.SYNTHETIC, TextureEmphasis.ETHEREAL]) ∧
    ((photography_to_technical_profile ph).composition_strategy ∈
        [CompositionStrategy.GEOMETRIC, CompositionStrategy.ASYMMETRICAL,
         CompositionStrategy.TIGHT_CROP, CompositionStrategy.ENVIRONMENTAL,
         CompositionStrategy.MINIMALIST] ∧
      (photography_to_technical_profile ph).focal_length_category ∈
        [FocalLengthCategory.ULTRA_WIDE, FocalLengthCategory.WIDE,
         FocalLengthCategory.STANDARD, FocalLengthCategory.MEDIUM_TELEPHOTO,
         FocalLengthCategory.TELEPHOTO] ∧
      (photography_to_technical_profile ph).subject_context ∈
        [SubjectContext.PEOPLE, SubjectContext.OBJECTS, SubjectContext.PLACES,
         SubjectContext.MOMENTS, SubjectContext.ABSTRACT] ∧
      (photography_to_technical_profile ph).depth_of_field ∈
        [DepthOfField.shallow, DepthOfField.moderate, DepthOfField.deep]) ∧
    ((magazine_to_visual_treatment m).color_category =
        firstMatch (magazineColorText m) colorRulesSpec ColorPaletteCategory.MIXED ∧
      (magazine_to_visual_treatment m).lighting_approach =
        firstMatch (magazineLightingText m) lightingRulesSpec LightingApproach.DRAMATIC ∧
      (magazine_to_visual_treatment m).contrast_profile =
        firstMatch (magazineContrastText m) contrastRulesSpec ContrastProfile.MEDIUM ∧
      (magazine_to_visual_treatment m).texture_emphasis =
        firstMatch (magazineTextureText m) textureRulesSpec TextureEmphasis.ORGANIC) ∧
    ((photography_to_technical_profile ph).composition_strategy =
        firstMatch (photographyCompositionText ph) compositionRulesSpec
          CompositionStrategy.ASYMMETRICAL ∧
      (photography_to_technical_profile ph).focal_length_category =
        firstMatch (photographyFocalText ph) focalRulesSpec FocalLengthCategory.STANDARD ∧
      (photography_to_technical_profile ph).subject_context =
        firstMatch (photographyUsesText ph) subjectRulesSpec SubjectContext.ABSTRACT ∧
      (photography_to_technical_profile ph).depth_of_field =
        firstMatch (photographyApertureText ph) dofRulesSpec DepthOfField.moderate) :=
  ⟨⟨colorCat_mem_closed _, lighting_mem_closed _, contrast_mem_closed _,
    texture_mem_closed _⟩,
   ⟨composition_mem_closed _, focal_mem_closed _, subject_mem_closed _,
    dof_mem_closed _⟩,
   ⟨rfl, rfl, rfl, rfl⟩,
   ⟨rfl, rfl, rfl, rfl⟩⟩

-- Bounds on the three pre-clamp scores.

lemma technicalScorePre_bounds (pp : PhotographyTechnicalProfile) :
    5 ≤ technicalScorePre pp ∧ technicalScorePre pp ≤ 8 := by
  simp only [technicalScorePre]
  split_ifs <;> omega

lemma aestheticScorePre_bounds (mp : VisualTreatmentProfile)
    (pp : PhotographyTechnicalProfile) :
    5 ≤ aestheticScorePre mp pp ∧ aestheticScorePre mp pp ≤ 9 := by
  simp only [aestheticScorePre]
  split_ifs <;> omega

lemma creativeTensionPre_bounds (mp : VisualTreatmentProfile)
    (pp : PhotographyTechnicalProfile) (t : TemporalAlignment) :
    5 ≤ creativeTensionPre mp pp t ∧ creativeTensionPre mp pp t ≤ 8 := by
  simp only [creativeTensionPre]
  split_ifs <;> omega

/-- C1: the overall_harmony field returned by compatibility_mapping is exactly
clamp((technical_pre + aesthetic_pre) // 2 - (1 if tension_pre > 7 else 0), 1, 10),
where the three pre-clamp scores are the intermediate values (base 5 plus
bonuses) computed before the final clamping step. -/
theorem compatibility_overall_harmony_reconstruction
    (mp : VisualTreatmentProfile) (pp : PhotographyTechnicalProfile)
    (era name : String) :
    (compatibility_mapping mp pp era name).overall_harmony =
      max 1 (min 10 ((technicalScorePre pp + aestheticScorePre mp pp) / 2 -
        (if creativeTensionPre mp pp (temporalAlignmentOf era name) > 7
          then 1 else 0))) := by
  simp only [compatibility_mapping]
  split_ifs <;> omega

/-- C2: for every pair of classified profiles and all era/name strings,
compatibility_mapping returns four integer scores each in [1, 10] and a
temporal_alignment drawn from the three-label taxonomy. -/
theorem compatibility_scores_in_range
    (mp : VisualTreatmentProfile) (pp : PhotographyTechnicalProfile)
    (era name : String) :
    (1 ≤ (compatibility_mapping mp pp era name).overall_harmony ∧
      (compatibility_mapping mp pp era name).overall_harmony ≤ 10) ∧
    (1 ≤ (compatibility_mapping mp pp era name).technical_score ∧
      (compatibility_mapping mp pp era name).technical_score ≤ 10) ∧
    (1 ≤ (compatibility_mapping mp pp era name).aesthetic_score ∧
      (compatibility_mapping mp pp era name).aesthetic_score ≤ 10) ∧
    (1 ≤ (compatibility_mapping mp pp era name).creative_tension ∧
      (compatibility_mapping mp pp era name).creative_tension ≤ 10) ∧
    ((compatibility_mapping mp pp era name).temporal_alignment =
        TemporalAlignment.ERA_MATCHED ∨
      (compatibility_mapping mp pp era name).temporal_alignment =
        TemporalAlignment.CREATIVE_ANACHRONISM ∨
      (compatibility_mapping mp pp era name).temporal_alignment =
        TemporalAlignment.TEMPORAL_CLASH) := by
  refine ⟨?_, ?_, ?_, ?_, ?_⟩
  · simp only [compatibility_mapping]; omega
  · simp only [compatibility_mapping]; omega
  · simp only [compatibility_mapping]; omega
  · simp only [compatibility_mapping]; omega
  · simp only [compatibility_mapping]
    cases temporalAlignmentOf era name <;> simp

/-- C4: for every input, the temporal alignment computed by
compatibility_mapping is never TEMPORAL_CLASH; it is always ERA_MATCHED or
CREATIVE_ANACHRONISM (the latter being the fallback branch of the rule set). -/
theorem compatibility_never_temporal_clash
    (mp : VisualTreatmentProfile) (pp : PhotographyTechnicalProfile)
    (era name : String) :
    (compatibility_mapping mp pp era name).temporal_alignment ≠
      TemporalAlignment.TEMPORAL_CLASH ∧
    ((compatibility_mapping mp pp era name).temporal_alignment =
        TemporalAlignment.ERA_MATCHED ∨
      (compatibility_mapping mp pp era name).temporal_alignment =
        TemporalAlignment.CREATIVE_ANACHRONISM) := by
  have h : ∀ e n, temporalAlignmentOf e n = TemporalAlignment.ERA_MATCHED ∨
      temporalAlignmentOf e n = TemporalAlignment.CREATIVE_ANACHRONISM := by
    intro e n
    simp only [temporalAlignmentOf]
    split_ifs <;> simp
  have hcm : (compatibility_mapping mp pp era name).temporal_alignment =
      temporalAlignmentOf era name := rfl
  rw [hcm]
  rcases h era name with h1 | h1 <;> rw [h1] <;> simp

-- ===========================================================================
-- Part 2: src/magazine_photography_mcp.py — Phase 2.6/2.7 morphospace engine.
-- ===========================================================================

-- A point of the 6D morphospace; fields in MAGPHOTO_PARAMETER_NAMES order.
structure MPState where
  color_saturation : ℝ
  detail_sharpness : ℝ
  mood_intensity : ℝ
  contrast_level : ℝ
  temporal_warmth : ℝ
  compositional_formality : ℝ

instance : Inhabited MPState := ⟨⟨0, 0, 0, 0, 0, 0⟩⟩

def MAGPHOTO_PARAMETER_NAMES : List String :=
  ["color_saturation", "detail_sharpness", "mood_intensity", "contrast_level",
   "temporal_warmth", "compositional_formality"]

-- Canonical aesthetic states (mcp lines 565-629), keyed in insertion order.
noncomputable def MAGPHOTO_COORDS : List (String × MPState) :=
  [("editorial_glamour", ⟨0.85, 0.80, 0.70, 0.65, 0.40, 0.90⟩),
   ("documentary_grit", ⟨0.45, 0.60, 0.80, 0.85, 0.55, 0.15⟩),
   ("minimalist_modern", ⟨0.25, 0.75, 0.20, 0.30, 0.25, 0.60⟩),
   ("avant_garde_experimental", ⟨0.65, 0.40, 0.95, 0.75, 0.35, 0.10⟩),
   ("golden_age_portrait", ⟨0.60, 0.70, 0.55, 0.50, 0.85, 0.80⟩),
   ("street_candid", ⟨0.50, 0.45, 0.60, 0.70, 0.50, 0.05⟩),
   ("nature_sublime", ⟨0.90, 0.85, 0.75, 0.55, 0.60, 0.50⟩)]

structure RhythmicPreset where
  state_a : String
  state_b : String
  pattern : String
  num_cycles : ℕ
  steps_per_cycle : ℕ
  description : String
  deriving DecidableEq

-- Phase 2.6 rhythmic presets (mcp lines 637-678).
def MAGPHOTO_RHYTHMIC_PRESETS : List (String × RhythmicPreset) :=
  [("editorial_sweep",
    ⟨"editorial_glamour", "minimalist_modern", "sinusoidal", 3, 20,
     "Fashion editorial cycling between glamour saturation and minimalist restraint"⟩),
   ("era_drift",
    ⟨"golden_age_portrait", "minimalist_modern", "sinusoidal", 3, 24,
     "Temporal drift between warm vintage portraiture and cool modern minimalism"⟩),
   ("tension_pulse",
    ⟨"documentary_grit", "avant_garde_experimental", "sinusoidal", 4, 16,
     "Rhythmic pulse between raw documentary honesty and experimental abstraction"⟩),
   ("mood_arc",
    ⟨"minimalist_modern", "nature_sublime", "triangular", 2, 30,
     "Gradual arc from quiet minimalism to sublime natural drama and back"⟩),
   ("formality_toggle",
    ⟨"street_candid", "editorial_glamour", "square", 5, 12,
     "Sharp toggle between raw street spontaneity and controlled editorial staging"⟩)]

structure OpticalProperties where
  finish : String
  lighting : String
  grain : String
  depth_of_field : String

structure VisualType where
  coords : MPState
  keywords : List String
  optical_properties : OpticalProperties

-- Phase 2.7 visual vocabulary types (mcp lines 685-811), in catalog order.
noncomputable def MAGPHOTO_VISUAL_TYPES : List (String × VisualType) :=
  [("editorial_polished",
    ⟨⟨0.85, 0.80, 0.65, 0.60, 0.40, 0.90⟩,
     ["editorial fashion photography",
      "studio-lit with precise shadows",
      "retouched skin and fabric textures",
      "saturated color palette with designer precision",
      "geometric composition with deliberate negative space",
      "glossy magazine-spread finish",
      "high-end commercial aesthetic"],
     ⟨"glossy", "controlled multi-source studio", "none", "selective razor focus"⟩⟩),
   ("raw_documentary",
    ⟨⟨0.45, 0.55, 0.80, 0.85, 0.55, 0.15⟩,
     ["raw photojournalistic documentary",
      "available light with deep shadows",
      "visible film grain and optical imperfections",
      "high-contrast tonal range",
      "unposed decisive-moment composition",
      "gritty street-level authenticity",
      "analog warmth with honest texture"],
     ⟨"matte", "available/natural with hard shadows", "pronounced film grain",
      "deep environmental focus"⟩⟩),
   ("ethereal_minimal",
    ⟨⟨0.25, 0.70, 0.20, 0.25, 0.25, 0.60⟩,
     ["airy minimalist photography",
      "soft diffused even lighting",
      "desaturated muted pastel tones",
      "expansive negative space with clean geometry",
      "understated quiet presence",
      "fine-art gallery aesthetic",
      "crisp detail within restrained palette"],
     ⟨"matte with slight luminosity", "diffused overcast softbox", "none, clean sensor",
      "moderate, subject isolation"⟩⟩),
   ("dramatic_cinematic",
    ⟨⟨0.70, 0.50, 0.90, 0.80, 0.50, 0.35⟩,
     ["cinematic narrative photography",
      "chiaroscuro lighting with motivated sources",
      "rich color grading with teal-orange or complementary split",
      "atmospheric haze and volumetric light",
      "widescreen compositional framing",
      "emotionally charged with filmic tension",
      "shallow depth isolating subject from environment"],
     ⟨"filmic with subtle halation", "motivated practical sources with controlled spill",
      "subtle filmic texture", "shallow cinematic bokeh"⟩⟩),
   ("vintage_analog",
    ⟨⟨0.55, 0.45, 0.55, 0.50, 0.90, 0.70⟩,
     ["vintage analog film photography",
      "warm color cast with lifted blacks",
      "soft optical rendering with gentle vignette",
      "Kodachrome or Ektachrome color science",
      "period-correct styling and staging",
      "nostalgic golden-hour warmth",
      "hand-printed darkroom finish"],
     ⟨"semi-matte with warm cast", "golden-hour natural or tungsten",
      "organic film grain, medium format", "vintage lens rendering with swirl bokeh"⟩⟩)]

-- ---------------------------------------------------------------------------
-- Oscillation engine (mcp lines 818-870).  A raised ValueError becomes
-- Except.error.
-- ---------------------------------------------------------------------------

noncomputable def _generate_oscillation (num_steps : ℕ) (num_cycles : ℝ)
    (pattern : String) : Except String (List ℝ) :=
  let t := (List.range num_steps).map
    (fun i : ℕ => 2 * Real.pi * num_cycles * (i : ℝ) / (num_steps : ℝ))
  if pattern = "sinusoidal" then
    .ok (t.map (fun v => 0.5 * (1 + Real.sin v)))
  else if pattern = "triangular" then
    .ok (t.map (fun v =>
      let t_norm := Int.fract (v / (2 * Real.pi))
      if t_norm < 0.5 then 2 * t_norm else 2 * (1 - t_norm)))
  else if pattern = "square" then
    .ok (t.map (fun v => if Int.fract (v / (2 * Real.pi)) < 0.5 then (0 : ℝ) else 1))
  else
    .error ("Unknown pattern: " ++ pattern)

noncomputable def _interpolate_states (state_a state_b : MPState) (alpha : ℝ) : MPState :=
  { color_saturation :=
      state_a.color_saturation * (1 - alpha) + state_b.color_saturation * alpha
    detail_sharpness :=
      state_a.detail_sharpness * (1 - alpha) + state_b.detail_sharpness * alpha
    mood_intensity :=
      state_a.mood_intensity * (1 - alpha) + state_b.mood_intensity * alpha
    contrast_level :=
      state_a.contrast_level * (1 - alpha) + state_b.contrast_level * alpha
    temporal_warmth :=
      state_a.temporal_warmth * (1 - alpha) + state_b.temporal_warmth * alpha
    compositional_formality :=
      state_a.compositional_formality * (1 - alpha) +
        state_b.compositional_formality * alpha }

-- Full trajectory of a Phase 2.6 preset (mcp lines 844-851); a missing
-- catalog key would be a raised KeyError, modelled as Except.error.
noncomputable def _generate_preset_trajectory (preset_name : String) :
    Except String (List MPState) :=
  match MAGPHOTO_RHYTHMIC_PRESETS.lookup preset_name with
  | none => .error ("KeyError: " ++ preset_name)
  | some preset =>
    match MAGPHOTO_COORDS.lookup preset.state_a,
        MAGPHOTO_COORDS.lookup preset.state_b with
    | some state_a, some state_b =>
      let total_steps := preset.num_cycles * preset.steps_per_cycle
      match _generate_oscillation total_steps (preset.num_cycles : ℝ) preset.pattern with
      | .error e => .error e
      | .ok alphas => .ok (alphas.map (_interpolate_states state_a state_b))
    | _, _ => .error "KeyError: unknown canonical state"

noncomputable def _euclidean_distance (a b : MPState) : ℝ :=
  Real.sqrt ((a.color_saturation - b.color_saturation) ^ 2 +
    (a.detail_sharpness - b.detail_sharpness) ^ 2 +
    (a.mood_intensity - b.mood_intensity) ^ 2 +
    (a.contrast_level - b.contrast_level) ^ 2 +
    (a.temporal_warmth - b.temporal_warmth) ^ 2 +
    (a.compositional_formality - b.compositional_formality) ^ 2)

-- Linear scan keeping the first strictly smaller distance (mcp lines 859-870).
-- The Python loop starts from best_dist = inf, so the accumulator is None
-- only before the first (always-taken) update; the catalog is non-empty.
noncomputable def _find_nearest_visual_type (state : MPState) :
    Option (String × ℝ × VisualType) :=
  MAGPHOTO_VISUAL_TYPES.foldl
    (fun best entry =>
      let d := _euclidean_distance state entry.2.coords
      match best with
      | none => some (entry.1, d, entry.2)
      | some best0 => if d < best0.2.1 then some (entry.1, d, entry.2) else some best0)
    none

noncomputable def dummyVisualType : VisualType := ⟨⟨0, 0, 0, 0, 0, 0⟩, [], ⟨"", "", "", ""⟩⟩

-- Python's round(x, 4) (display rounding of output states and distances).
noncomputable def round4 (x : ℝ) : ℝ := (round (x * 10000) : ℤ) / 10000

noncomputable def round4State (s : MPState) : MPState :=
  ⟨round4 s.color_saturation, round4 s.detail_sharpness, round4 s.mood_intensity,
   round4 s.contrast_level, round4 s.temporal_warmth, round4 s.compositional_formality⟩

-- User-supplied parameter dicts arrive as association lists; after the
-- missing-keys check every axis is present, so getD never hits its default.
def dictToState (d : List (String × ℝ)) : MPState :=
  ⟨(d.lookup "color_saturation").getD 0,
   (d.lookup "detail_sharpness").getD 0,
   (d.lookup "mood_intensity").getD 0,
   (d.lookup "contrast_level").getD 0,
   (d.lookup "temporal_warmth").getD 0,
   (d.lookup "compositional_formality").getD 0⟩

-- Python repr of a list of strings, as interpolated into f-string messages.
def pyReprStrList (l : List String) : String :=
  "[" ++ String.intercalate ", " (l.map (fun s => "\x27" ++ s ++ "\x27")) ++ "]"

-- ---------------------------------------------------------------------------
-- Tool-level operations.  Returned error dicts become error constructors of
-- the output types; a raised exception becomes Except.error.
-- ---------------------------------------------------------------------------

-- get_aesthetic_state_coordinates (mcp lines 911-936).
inductive CoordsOutput
  | error (msg : String) (available_states : List String)
  | ok (state_name : String) (coordinates : MPState)

noncomputable def get_aesthetic_state_coordinates (state_name : String) : CoordsOutput :=
  match MAGPHOTO_COORDS.lookup state_name with
  | none =>
    .error ("Unknown state \x27" ++ state_name ++ "\x27") (MAGPHOTO_COORDS.map (·.1))
  | some c => .ok state_name c

-- generate_rhythmic_sequence (mcp lines 939-986).  `num_steps or default`
-- treats the explicit 0 as falsy, exactly as Python does.
structure RhythmicSequenceResult where
  preset : String
  description : String
  period : ℕ
  total_steps : ℕ
  pattern : String
  state_a : String
  state_b : String
  trajectory : List MPState

inductive RhythmicSequenceOutput
  | error (msg : String) (available_presets : List String)
  | ok (r : RhythmicSequenceResult)

noncomputable def generate_rhythmic_sequence (preset_name : String)
    (num_steps : Option ℕ) : Except String RhythmicSequenceOutput :=
  match MAGPHOTO_RHYTHMIC_PRESETS.lookup preset_name with
  | none =>
    .ok (.error ("Unknown preset \x27" ++ preset_name ++ "\x27")
      (MAGPHOTO_RHYTHMIC_PRESETS.map (·.1)))
  | some preset =>
    match MAGPHOTO_COORDS.lookup preset.state_a,
        MAGPHOTO_COORDS.lookup preset.state_b with
    | some state_a, some state_b =>
      let total := match num_steps with
        | none => preset.num_cycles * preset.steps_per_cycle
        | some n => if n = 0 then preset.num_cycles * preset.steps_per_cycle else n
      let num_cycles : ℝ := match num_steps with
        | none => (preset.num_cycles : ℝ)
        | some n => (n : ℝ) / (preset.steps_per_cycle : ℝ)
      match _generate_oscillation total num_cycles preset.pattern with
      | .error e => .error e
      | .ok alphas =>
        .ok (.ok
          { preset := preset_name
            description := preset.description
            period := preset.steps_per_cycle
            total_steps := total
            pattern := preset.pattern
            state_a := preset.state_a
            state_b := preset.state_b
            trajectory := alphas.map (_interpolate_states state_a state_b) })
    | _, _ => .error "KeyError: unknown canonical state"

-- extract_visual_vocabulary (mcp lines 1051-1094).
inductive VocabularyOutput
  | error (msg : String) (expected : List String)
  | ok (nearest_type : String) (distance : ℝ) (keywords : List String)
      (optical_properties : OpticalProperties) (input_state : List (String × ℝ))
      (strength : ℝ)

noncomputable def extract_visual_vocabulary (state : List (String × ℝ))
    (strength : ℝ) : VocabularyOutput :=
  let missing := MAGPHOTO_PARAMETER_NAMES.filter (fun p => (state.lookup p).isNone)
  if missing = [] then
    let nearest := (_find_nearest_visual_type (dictToState state)).getD
      ("", 0, dummyVisualType)
    let keywords := nearest.2.2.keywords
    let keywords :=
      if strength < 1 then
        keywords.take (max 2 (Int.toNat ⌊(keywords.length : ℝ) * strength⌋))
      else keywords
    .ok nearest.1 (round4 nearest.2.1) keywords nearest.2.2.optical_properties
      state strength
  else
    .error ("Missing parameters: " ++ pyReprStrList missing) MAGPHOTO_PARAMETER_NAMES

-- generate_attractor_prompt (mcp lines 1097-1215).
structure Keyframe where
  step : ℕ
  state : MPState
  nearest_type : String
  distance : ℝ
  prompt : String

inductive GAPOutput
  | errorAvail (msg : String) (available : List String)
  | error (msg : String)
  | sequence (preset : String) (description : String) (keyframe_count : ℕ)
      (keyframes : List Keyframe)
  | composite (source : String) (nearest_type : String) (distance : ℝ)
      (prompt : String) (keywords : List String) (optical : OpticalProperties)
      (state : MPState)
  | splitView (source : String) (nearest_type : String) (distance : ℝ)
      (sections : List (String × String)) (state : MPState)

-- The common tail of composite / split_view (mcp lines 1177-1215): resolve the
-- working state against the vocabulary and dispatch on the mode.
noncomputable def gapSingleState (mode style_modifier source : String)
    (st : MPState) : Except String GAPOutput :=
  let nearest := (_find_nearest_visual_type st).getD ("", 0, dummyVisualType)
  if mode = "composite" then
    .ok (.composite source nearest.1 (round4 nearest.2.1)
      ((if style_modifier = "" then "" else style_modifier ++ ", ") ++
        String.intercalate ", " nearest.2.2.keywords)
      nearest.2.2.keywords nearest.2.2.optical_properties (round4State st))
  else if mode = "split_view" then
    let kw := nearest.2.2.keywords
    let optical := nearest.2.2.optical_properties
    let prefx := if style_modifier = "" then "" else style_modifier ++ ", "
    .ok (.splitView source nearest.1 (round4 nearest.2.1)
      [("color_and_tone", prefx ++ kw.getD 3 "" ++ ", " ++ optical.finish),
       ("lighting", prefx ++ kw.getD 1 "" ++ ", " ++ optical.lighting),
       ("texture_and_detail", prefx ++ kw.getD 2 "" ++ ", " ++ optical.grain),
       ("mood_and_composition", prefx ++ kw.getD 4 "" ++ ", " ++ kw.getD 5 "")]
      (round4State st))
  else
    .ok (.error ("Unknown mode \x27" ++ mode ++
      "\x27. Use composite, split_view, or sequence."))

-- The elif-preset_name branch of the single-state path (mcp lines 1166-1175).
noncomputable def gapFromPreset (preset_name : Option String)
    (mode style_modifier : String) : Except String GAPOutput :=
  let pn := preset_name.getD ""
  if pn = "" then .ok (.error "Provide preset_name or custom_state")
  else
    match MAGPHOTO_RHYTHMIC_PRESETS.lookup pn with
    | none => .ok (.error ("Unknown preset \x27" ++ pn ++ "\x27"))
    | some _ =>
      match _generate_preset_trajectory pn with
      | .error e => .error e
      | .ok trajectory =>
        let mid := trajectory.length / 4
        gapSingleState mode style_modifier ("preset:" ++ pn ++ ":step_" ++ toString mid)
          (trajectory.getD mid default)

noncomputable def generate_attractor_prompt (preset_name : Option String)
    (custom_state : Option (List (String × ℝ))) (mode : String)
    (style_modifier : String) (keyframe_count : ℕ) : Except String GAPOutput :=
  if mode = "sequence" then
    let pn := preset_name.getD ""
    if pn = "" then .ok (.error "preset_name required for sequence mode")
    else
      match MAGPHOTO_RHYTHMIC_PRESETS.lookup pn with
      | none =>
        .ok (.errorAvail ("Unknown preset \x27" ++ pn ++ "\x27")
          (MAGPHOTO_RHYTHMIC_PRESETS.map (·.1)))
      | some preset =>
        match _generate_preset_trajectory pn with
        | .error e => .error e
        | .ok trajectory =>
          let total := trajectory.length
          if keyframe_count = 0 then
            .error "ZeroDivisionError: integer division or modulo by zero"
          else
            let step_size := max 1 (total / keyframe_count)
            let keyframes := (List.range keyframe_count).map (fun k =>
              let idx := min (k * step_size) (total - 1)
              let st := trajectory.getD idx default
              let nearest := (_find_nearest_visual_type st).getD ("", 0, dummyVisualType)
              { step := idx
                state := round4State st
                nearest_type := nearest.1
                distance := round4 nearest.2.1
                prompt := (if style_modifier = "" then "" else style_modifier ++ ", ") ++
                  String.intercalate ", " nearest.2.2.keywords : Keyframe })
            .ok (.sequence pn preset.description keyframe_count keyframes)
  else
    match custom_state with
    | some cs =>
      match cs with
      | [] => gapFromPreset preset_name mode style_modifier
      | _ =>
        let missing := MAGPHOTO_PARAMETER_NAMES.filter (fun p => (cs.lookup p).isNone)
        if missing = [] then gapSingleState mode style_modifier "custom" (dictToState cs)
        else .ok (.error ("Missing parameters in custom_state: " ++ pyReprStrList missing))
    | none => gapFromPreset preset_name mode style_modifier

-- Projections used to state the theorems below.

def rhythmic_trajectory : Except String RhythmicSequenceOutput → Option (List MPState)
  | .ok (.ok r) => some r.trajectory
  | _ => none

def gapKeyframes : Except String GAPOutput → Option (List Keyframe)
  | .ok (.sequence _ _ _ kfs) => some kfs
  | _ => none

def gapAvailable : Except String GAPOutput → Option (List String)
  | .ok (.errorAvail _ l) => some l
  | _ => none

/-- C9: interpolation is exact at both boundaries (alpha 0 returns state_a,
alpha 1 returns state_b on every axis), Euclidean distance is symmetric, and
the distance from a state to itself is 0. -/
theorem interpolation_boundary_and_distance_symmetry (a b : MPState) :
    _interpolate_states a b 0 = a ∧ _interpolate_states a b 1 = b ∧
    _euclidean_distance a b = _euclidean_distance b a ∧
    _euclidean_distance a a = 0 := by
  refine ⟨?_, ?_, ?_, ?_⟩
  · cases a; cases b; simp [_interpolate_states]
  · cases a; cases b; simp [_interpolate_states]
  · unfold _euclidean_distance
    congr 1
    ring
  · simp [_euclidean_distance]

/-- C5: for every num_steps ≥ 1 and every cycle count, the square oscillation
contains only the values 0 and 1; the sinusoidal oscillation stays inside
[0, 1]; the first sample of each pattern is its phase-0 value (1/2 for
sinusoidal, 0 for triangular and square); and any other pattern identifier is
rejected with a raised invalid-pattern error. -/
theorem oscillation_ranges_phase0_and_invalid_pattern
    (n : ℕ) (c : ℝ) (hn : 1 ≤ n) :
    (∀ l, _generate_oscillation n c "square" = .ok l → ∀ x ∈ l, x = 0 ∨ x = 1) ∧
    (∀ l, _generate_oscillation n c "sinusoidal" = .ok l → ∀ x ∈ l, 0 ≤ x ∧ x ≤ 1) ∧
    (∀ l, _generate_oscillation n c "sinusoidal" = .ok l → l.head? = some (1 / 2)) ∧
    (∀ l, _generate_oscillation n c "triangular" = .ok l → l.head? = some 0) ∧
    (∀ l, _generate_oscillation n c "square" = .ok l → l.head? = some 0) ∧
    (∀ p, p ≠ "sinusoidal" → p ≠ "triangular" → p ≠ "square" →
      _generate_oscillation n c p = .error ("Unknown pattern: " ++ p)) := by
  obtain ⟨m, rfl⟩ : ∃ m, n = m + 1 := ⟨n - 1, by omega⟩
  refine ⟨?_, ?_, ?_, ?_, ?_, ?_⟩
  · intro l h
    simp only [_generate_oscillation, String.reduceEq, reduceIte, Except.ok.injEq] at h
    subst h
    intro x hx
    simp only [List.mem_map] at hx
    obtain ⟨v, _, rfl⟩ := hx
    split <;> simp
  · intro l h
    simp only [_generate_oscillation, String.reduceEq, reduceIte, Except.ok.injEq] at h
    subst h
    intro x hx
    simp only [List.mem_map] at hx
    obtain ⟨v, hv, rfl⟩ := hx
    obtain ⟨i, _, rfl⟩ := hv
    constructor
    · nlinarith [Real.neg_one_le_sin (2 * Real.pi * c * (i : ℝ) / ((m + 1 : ℕ) : ℝ))]
    · nlinarith [Real.sin_le_one (2 * Real.pi * c * (i : ℝ) / ((m + 1 : ℕ) : ℝ))]
  · intro l h
    simp only [_generate_oscillation, String.reduceEq, reduceIte, Except.ok.injEq] at h
    subst h
    simp only [List.range_succ_eq_map, List.map_cons, List.head?_cons,
      Nat.cast_zero, mul_zero, zero_div, Real.sin_zero]
    norm_num
  · intro l h
    simp only [_generate_oscillation, String.reduceEq, reduceIte, Except.ok.injEq] at h
    subst h
    simp only [List.range_succ_eq_map, List.map_cons, List.head?_cons,
      Nat.cast_zero, mul_zero, zero_div, Int.fract_zero]
    norm_num
  · intro l h
    simp only [_generate_oscillation, String.reduceEq, reduceIte, Except.ok.injEq] at h
    subst h
    simp only [List.range_succ_eq_map, List.map_cons, List.head?_cons,
      Nat.cast_zero, mul_zero, zero_div, Int.fract_zero]
    norm_num
  · intro p h1 h2 h3
    simp [_generate_oscillation, h1, h2, h3]

/-- C5 witness: the oscillation theorem instantiated at num_steps 3 and
num_cycles 1. -/
theorem oscillation_ranges_phase0_and_invalid_pattern_witness :
    (∀ l, _generate_oscillation 3 1 "square" = .ok l → ∀ x ∈ l, x = 0 ∨ x = 1) ∧
    (∀ l, _generate_oscillation 3 1 "sinusoidal" = .ok l → ∀ x ∈ l, 0 ≤ x ∧ x ≤ 1) ∧
    (∀ l, _generate_oscillation 3 1 "sinusoidal" = .ok l → l.head? = some (1 / 2)) ∧
    (∀ l, _generate_oscillation 3 1 "triangular" = .ok l → l.head? = some 0) ∧
    (∀ l, _generate_oscillation 3 1 "square" = .ok l → l.head? = some 0) ∧
    (∀ p, p ≠ "sinusoidal" → p ≠ "triangular" → p ≠ "square" →
      _generate_oscillation 3 1 p = .error ("Unknown pattern: " ++ p)) :=
  oscillation_ranges_phase0_and_invalid_pattern 3 1 (by norm_num)

instance : Inhabited Keyframe := ⟨⟨0, default, "", 0, ""⟩⟩

/-- C6: for every preset, generate_rhythmic_sequence with no override yields a
trajectory of length num_cycles × steps_per_cycle, and with a positive
override n it yields a trajectory of length n whose alphas come from the
oscillator driven with the recomputed cycle count n / steps_per_cycle. -/
theorem rhythmic_sequence_default_and_override_length
    (pn : String) (p : RhythmicPreset) (h : (pn, p) ∈ MAGPHOTO_RHYTHMIC_PRESETS) :
    ((rhythmic_trajectory (generate_rhythmic_sequence pn none)).map List.length =
      some (p.num_cycles * p.steps_per_cycle)) ∧
    ∀ n : ℕ, 0 < n →
      ((rhythmic_trajectory (generate_rhythmic_sequence pn (some n))).map List.length =
        some n) ∧
      ∃ state_a state_b alphas,
        MAGPHOTO_COORDS.lookup p.state_a = some state_a ∧
        MAGPHOTO_COORDS.lookup p.state_b = some state_b ∧
        _generate_oscillation n ((n : ℝ) / (p.steps_per_cycle : ℝ)) p.pattern =
          .ok alphas ∧
        rhythmic_trajectory (generate_rhythmic_sequence pn (some n)) =
          some (alphas.map (_interpolate_states state_a state_b)) := by
  simp only [MAGPHOTO_RHYTHMIC_PRESETS, List.mem_cons, List.not_mem_nil, or_false,
    Prod.mk.injEq] at h
  rcases h with ⟨rfl, rfl⟩ | ⟨rfl, rfl⟩ | ⟨rfl, rfl⟩ | ⟨rfl, rfl⟩ | ⟨rfl, rfl⟩ <;>
  · refine ⟨by simp [generate_rhythmic_sequence, rhythmic_trajectory,
      MAGPHOTO_RHYTHMIC_PRESETS, MAGPHOTO_COORDS, _generate_oscillation,
      List.lookup], fun n hn => ?_⟩
    have hn0 : n ≠ 0 := by omega
    refine ⟨by simp [generate_rhythmic_sequence, rhythmic_trajectory,
      MAGPHOTO_RHYTHMIC_PRESETS, MAGPHOTO_COORDS, _generate_oscillation,
      List.lookup, hn0], _, _, _, rfl, rfl, rfl, ?_⟩
    simp [generate_rhythmic_sequence, rhythmic_trajectory, MAGPHOTO_RHYTHMIC_PRESETS,
      MAGPHOTO_COORDS, _generate_oscillation, List.lookup, hn0]

/-- C6 witness: the editorial_sweep preset has default trajectory length 60 and
override length 7 for num_steps 7. -/
theorem rhythmic_sequence_default_and_override_length_witness :
    ((rhythmic_trajectory (generate_rhythmic_sequence "editorial_sweep" none)).map
      List.length = some 60) ∧
    ((rhythmic_trajectory (generate_rhythmic_sequence "editorial_sweep" (some 7))).map
      List.length = some 7) := by
  obtain ⟨h1, h2⟩ := rhythmic_sequence_default_and_override_length "editorial_sweep"
    ⟨"editorial_glamour", "minimalist_modern", "sinusoidal", 3, 20,
     "Fashion editorial cycling between glamour saturation and minimalist restraint"⟩
    (by simp [MAGPHOTO_RHYTHMIC_PRESETS])
  exact ⟨h1, (h2 7 (by norm_num)).1⟩

/-- C10: for every preset, the explicit zero override num_steps = 0 is treated
as falsy by `num_steps or default`: the call succeeds, the trajectory keeps
the preset's default (non-zero) length while the recomputed cycle count is
0 / steps_per_cycle = 0, so the oscillator emits its phase-0 value at every
step and the whole trajectory is the constant interpolation at that alpha. -/
theorem rhythmic_sequence_zero_override_constant
    (pn : String) (p : RhythmicPreset) (h : (pn, p) ∈ MAGPHOTO_RHYTHMIC_PRESETS) :
    p.num_cycles * p.steps_per_cycle ≠ 0 ∧
    ∃ state_a state_b v,
      MAGPHOTO_COORDS.lookup p.state_a = some state_a ∧
      MAGPHOTO_COORDS.lookup p.state_b = some state_b ∧
      _generate_oscillation (p.num_cycles * p.steps_per_cycle)
        ((0 : ℝ) / (p.steps_per_cycle : ℝ)) p.pattern =
        .ok (List.replicate (p.num_cycles * p.steps_per_cycle) v) ∧
      (p.pattern = "sinusoidal" → v = 0.5) ∧
      (p.pattern = "triangular" → v = 0) ∧
      (p.pattern = "square" → v = 0) ∧
      rhythmic_trajectory (generate_rhythmic_sequence pn (some 0)) =
        some (List.replicate (p.num_cycles * p.steps_per_cycle)
          (_interpolate_states state_a state_b v)) := by
  have h05 : ((0 : ℝ) < 0.5) = True := by norm_num
  simp only [MAGPHOTO_RHYTHMIC_PRESETS, List.mem_cons, List.not_mem_nil, or_false,
    Prod.mk.injEq] at h
  rcases h with ⟨rfl, rfl⟩ | ⟨rfl, rfl⟩ | ⟨rfl, rfl⟩ | ⟨rfl, rfl⟩ | ⟨rfl, rfl⟩
  · refine ⟨by norm_num, _, _, (0.5 : ℝ), rfl, rfl, ?_, by simp, by simp, by simp, ?_⟩
    · simp [_generate_oscillation, Int.fract_zero, h05]
    · simp [generate_rhythmic_sequence, rhythmic_trajectory, MAGPHOTO_RHYTHMIC_PRESETS,
        MAGPHOTO_COORDS, _generate_oscillation, List.lookup, Int.fract_zero, h05,
        List.map_replicate]
  · refine ⟨by norm_num, _, _, (0.5 : ℝ), rfl, rfl, ?_, by simp, by simp, by simp, ?_⟩
    · simp [_generate_oscillation, Int.fract_zero, h05]
    · simp [generate_rhythmic_sequence, rhythmic_trajectory, MAGPHOTO_RHYTHMIC_PRESETS,
        MAGPHOTO_COORDS, _generate_oscillation, List.lookup, Int.fract_zero, h05,
        List.map_replicate]
  · refine ⟨by norm_num, _, _, (0.5 : ℝ), rfl, rfl, ?_, by simp, by simp, by simp, ?_⟩
    · simp [_generate_oscillation, Int.fract_zero, h05]
    · simp [generate_rhythmic_sequence, rhythmic_trajectory, MAGPHOTO_RHYTHMIC_PRESETS,
        MAGPHOTO_COORDS, _generate_oscillation, List.lookup, Int.fract_zero, h05,
        List.map_replicate]
  · refine ⟨by norm_num, _, _, (0 : ℝ), rfl, rfl, ?_, by simp, by simp, by simp, ?_⟩
    · simp [_generate_oscillation, Int.fract_zero, h05]
    · simp [generate_rhythmic_sequence, rhythmic_trajectory, MAGPHOTO_RHYTHMIC_PRESETS,
        MAGPHOTO_COORDS, _generate_oscillation, List.lookup, Int.fract_zero, h05,
        List.map_replicate]
  · refine ⟨by norm_num, _, _, (0 : ℝ), rfl, rfl, ?_, by simp, by simp, by simp, ?_⟩
    · simp [_generate_oscillation, Int.fract_zero, h05]
    · simp [generate_rhythmic_sequence, rhythmic_trajectory, MAGPHOTO_RHYTHMIC_PRESETS,
        MAGPHOTO_COORDS, _generate_oscillation, List.lookup, Int.fract_zero, h05,
        List.map_replicate]

def moodArcPreset : RhythmicPreset :=
  ⟨"minimalist_modern", "nature_sublime", "triangular", 2, 30,
   "Gradual arc from quiet minimalism to sublime natural drama and back"⟩

def editorialSweepPreset : RhythmicPreset :=
  ⟨"editorial_glamour", "minimalist_modern", "sinusoidal", 3, 20,
   "Fashion editorial cycling between glamour saturation and minimalist restraint"⟩

/-- C10 witness: the zero-override theorem instantiated at the mood_arc
preset. -/
theorem rhythmic_sequence_zero_override_constant_witness :
    moodArcPreset.num_cycles * moodArcPreset.steps_per_cycle ≠ 0 ∧
    ∃ state_a state_b v,
      MAGPHOTO_COORDS.lookup moodArcPreset.state_a = some state_a ∧
      MAGPHOTO_COORDS.lookup moodArcPreset.state_b = some state_b ∧
      _generate_oscillation (moodArcPreset.num_cycles * moodArcPreset.steps_per_cycle)
        ((0 : ℝ) / (moodArcPreset.steps_per_cycle : ℝ)) moodArcPreset.pattern =
        .ok (List.replicate (moodArcPreset.num_cycles * moodArcPreset.steps_per_cycle) v) ∧
      (moodArcPreset.pattern = "sinusoidal" → v = 0.5) ∧
      (moodArcPreset.pattern = "triangular" → v = 0) ∧
      (moodArcPreset.pattern = "square" → v = 0) ∧
      rhythmic_trajectory (generate_rhythmic_sequence "mood_arc" (some 0)) =
        some (List.replicate (moodArcPreset.num_cycles * moodArcPreset.steps_per_cycle)
          (_interpolate_states state_a state_b v)) :=
  rhythmic_sequence_zero_override_constant "mood_arc" moodArcPreset
    (by simp [MAGPHOTO_RHYTHMIC_PRESETS, moodArcPreset])

/-- C7 (amended): sequence mode of generate_attractor_prompt selects keyframe
indices k · max(1, floor(total / keyframe_count)) for k in [0, keyframe_count),
each clamped to total − 1 (the code applies max(1, ·) to the stride, which the
original claim omits), and resolves each selected keyframe state independently
against the vocabulary via nearest-neighbour matching. -/
theorem attractor_sequence_keyframe_selection
    (pn : String) (p : RhythmicPreset) (h : (pn, p) ∈ MAGPHOTO_RHYTHMIC_PRESETS)
    (kc : ℕ) (hkc : 1 ≤ kc) (sm : String) :
    ∃ traj,
      _generate_preset_trajectory pn = .ok traj ∧
      traj.length = p.num_cycles * p.steps_per_cycle ∧
      gapKeyframes (generate_attractor_prompt (some pn) none "sequence" sm kc) =
        some ((List.range kc).map (fun k =>
          let idx := min (k * max 1 (traj.length / kc)) (traj.length - 1)
          let st := traj.getD idx default
          let nearest := (_find_nearest_visual_type st).getD ("", 0, dummyVisualType)
          { step := idx
            state := round4State st
            nearest_type := nearest.1
            distance := round4 nearest.2.1
            prompt := (if sm = "" then "" else sm ++ ", ") ++
              String.intercalate ", " nearest.2.2.keywords : Keyframe })) := by
  have hkc0 : kc ≠ 0 := by omega
  simp only [MAGPHOTO_RHYTHMIC_PRESETS, List.mem_cons, List.not_mem_nil, or_false,
    Prod.mk.injEq] at h
  rcases h with ⟨rfl, rfl⟩ | ⟨rfl, rfl⟩ | ⟨rfl, rfl⟩ | ⟨rfl, rfl⟩ | ⟨rfl, rfl⟩ <;>
  · refine ⟨_, rfl, ?_, ?_⟩
    · simp [_generate_preset_trajectory, MAGPHOTO_RHYTHMIC_PRESETS, MAGPHOTO_COORDS,
        List.lookup, _generate_oscillation]
    · simp [generate_attractor_prompt, gapKeyframes, _generate_preset_trajectory,
        MAGPHOTO_RHYTHMIC_PRESETS, MAGPHOTO_COORDS, List.lookup,
        _generate_oscillation, hkc0]

/-- C7 witness: the keyframe-selection theorem instantiated at the
editorial_sweep preset with keyframe_count 4 and no style modifier. -/
theorem attractor_sequence_keyframe_selection_witness :
    ∃ traj,
      _generate_preset_trajectory "editorial_sweep" = .ok traj ∧
      traj.length = editorialSweepPreset.num_cycles *
        editorialSweepPreset.steps_per_cycle ∧
      gapKeyframes (generate_attractor_prompt (some "editorial_sweep") none
          "sequence" "" 4) =
        some ((List.range 4).map (fun k =>
          let idx := min (k * max 1 (traj.length / 4)) (traj.length - 1)
          let st := traj.getD idx default
          let nearest := (_find_nearest_visual_type st).getD ("", 0, dummyVisualType)
          { step := idx
            state := round4State st
            nearest_type := nearest.1
            distance := round4 nearest.2.1
            prompt := (if ("" : String) = "" then "" else "" ++ ", ") ++
              String.intercalate ", " nearest.2.2.keywords : Keyframe })) :=
  attractor_sequence_keyframe_selection "editorial_sweep" editorialSweepPreset
    (by simp [MAGPHOTO_RHYTHMIC_PRESETS, editorialSweepPreset]) 4 (by norm_num) ""

/-- C7 counterexample: with keyframe_count 61 on the editorial_sweep preset
(total 60 steps), the claimed stride floor(total / keyframe_count) is 0, so
the claim predicts every keyframe index 0; the code instead uses stride
max(1, 0) = 1 and its second keyframe sits at step 1. -/
theorem attractor_sequence_keyframe_selection_counterexample :
    (gapKeyframes (generate_attractor_prompt (some "editorial_sweep") none "sequence"
      "" 61)).map (fun kfs => (kfs.map Keyframe.step).getD 1 0) = some 1 ∧
    min (1 * (60 / 61)) (60 - 1) = 0 := by
  constructor
  · simp [generate_attractor_prompt, gapKeyframes, _generate_preset_trajectory,
      MAGPHOTO_RHYTHMIC_PRESETS, MAGPHOTO_COORDS, List.lookup,
      _generate_oscillation, List.getD]
  · norm_num

/-- C8 (amended): every morphospace-layer operation given an unknown canonical
state name, an unknown preset name, or a custom state missing required axes
returns a structured error value (never a raised fault) that identifies the
offending name or the missing keys; get_aesthetic_state_coordinates,
extract_visual_vocabulary and sequence-mode generate_attractor_prompt also
list the valid alternatives, but generate_attractor_prompt's non-sequence
unknown-preset error and its custom-state missing-keys error carry no list of
alternatives (which the original claim asserts for every such error). -/
theorem morphospace_structured_errors :
    (∀ name, (MAGPHOTO_COORDS.lookup name).isNone = true →
      get_aesthetic_state_coordinates name =
        CoordsOutput.error ("Unknown state \x27" ++ name ++ "\x27")
          (MAGPHOTO_COORDS.map (·.1))) ∧
    (∀ (st : List (String × ℝ)) (strength : ℝ),
      MAGPHOTO_PARAMETER_NAMES.filter (fun p => (st.lookup p).isNone) ≠ [] →
      extract_visual_vocabulary st strength =
        VocabularyOutput.error ("Missing parameters: " ++ pyReprStrList
          (MAGPHOTO_PARAMETER_NAMES.filter (fun p => (st.lookup p).isNone)))
          MAGPHOTO_PARAMETER_NAMES) ∧
    (∀ (pn sm : String) (kc : ℕ), pn ≠ "" →
      (MAGPHOTO_RHYTHMIC_PRESETS.lookup pn).isNone = true →
      generate_attractor_prompt (some pn) none "sequence" sm kc =
        .ok (.errorAvail ("Unknown preset \x27" ++ pn ++ "\x27")
          (MAGPHOTO_RHYTHMIC_PRESETS.map (·.1)))) ∧
    (∀ (pn sm mode : String) (kc : ℕ), mode ≠ "sequence" → pn ≠ "" →
      (MAGPHOTO_RHYTHMIC_PRESETS.lookup pn).isNone = true →
      generate_attractor_prompt (some pn) none mode sm kc =
        .ok (.error ("Unknown preset \x27" ++ pn ++ "\x27"))) ∧
    (∀ (cs : List (String × ℝ)) (pnOpt : Option String) (sm mode : String) (kc : ℕ),
      mode ≠ "sequence" → cs ≠ [] →
      MAGPHOTO_PARAMETER_NAMES.filter (fun p => (cs.lookup p).isNone) ≠ [] →
      generate_attractor_prompt pnOpt (some cs) mode sm kc =
        .ok (.error ("Missing parameters in custom_state: " ++ pyReprStrList
          (MAGPHOTO_PARAMETER_NAMES.filter (fun p => (cs.lookup p).isNone))))) := by
  refine ⟨?_, ?_, ?_, ?_, ?_⟩
  · intro name h
    rw [Option.isNone_iff_eq_none] at h
    simp [get_aesthetic_state_coordinates, h]
  · intro st strength h
    simp [extract_visual_vocabulary, h]
  · intro pn sm kc hpn h
    rw [Option.isNone_iff_eq_none] at h
    simp [generate_attractor_prompt, hpn, h]
  · intro pn sm mode kc hmode hpn h
    rw [Option.isNone_iff_eq_none] at h
    simp [generate_attractor_prompt, gapFromPreset, hmode, hpn, h]
  · intro cs pnOpt sm mode kc hmode hcs hmiss
    rcases cs with _ | ⟨c0, cs0⟩
    · exact absurd rfl hcs
    · simp [generate_attractor_prompt, hmode, hmiss]

/-- C8 witness: the structured-error theorem instantiated at the unknown state
name plaid, the empty custom state, and the unknown preset name plaid. -/
theorem morphospace_structured_errors_witness :
    get_aesthetic_state_coordinates "plaid" =
      CoordsOutput.error "Unknown state \x27plaid\x27"
        ["editorial_glamour", "documentary_grit", "minimalist_modern",
         "avant_garde_experimental", "golden_age_portrait", "street_candid",
         "nature_sublime"] ∧
    extract_visual_vocabulary [] 1 =
      VocabularyOutput.error ("Missing parameters: " ++ pyReprStrList
        MAGPHOTO_PARAMETER_NAMES) MAGPHOTO_PARAMETER_NAMES ∧
    generate_attractor_prompt (some "plaid") none "sequence" "" 4 =
      .ok (.errorAvail "Unknown preset \x27plaid\x27"
        ["editorial_sweep", "era_drift", "tension_pulse", "mood_arc",
         "formality_toggle"]) := by
  obtain ⟨h1, h2, h3, -, -⟩ := morphospace_structured_errors
  exact ⟨h1 "plaid" rfl, h2 [] 1 (by decide), h3 "plaid" "" 4 (by decide) rfl⟩

/-- C8 counterexample: in composite mode the unknown-preset error of
generate_attractor_prompt is a bare error record with no list of valid
alternatives, contradicting the claim that every such error lists them. -/
theorem morphospace_structured_errors_counterexample :
    generate_attractor_prompt (some "bogus") none "composite" "" 4 =
      .ok (.error "Unknown preset \x27bogus\x27") ∧
    gapAvailable (generate_attractor_prompt (some "bogus") none "composite" "" 4) =
      none := by
  constructor
  · simp [generate_attractor_prompt, gapFromPreset, MAGPHOTO_RHYTHMIC_PRESETS,
      List.lookup]
  · simp [generate_attractor_prompt, gapFromPreset, gapAvailable,
      MAGPHOTO_RHYTHMIC_PRESETS, List.lookup]
